import Mathlib

/-!
Verification of the widget-lifecycle code of the EmuPyside6Widgets repository.

The Python sources (`DrawerWidget.py`, `OverlayWidget.py`,
`NotificationWidget.py`, `utils/lookandfeel.py`, and the legacy
`CasPyside6Widgets/OverlayWidget.py`) are shallowly embedded.  Widget
instances and parent windows are identified by numeric ids (`Nat`), the
class-level dictionaries keyed by `id(parent)` become functions
`Nat -> Option ...`, Python lists become `List Nat`, and the mutating
methods become state-transition functions.  Integer arithmetic from the
source is modelled on `Int`, with `Int.fdiv` wherever Python floor
division `//` occurs; the one floating-point expression
(`parent_width * 0.8` in `DrawerWidget._position_content`) is modelled by
the exact rational `8/10` on `Rat`.
-/

namespace EmuWidgets

/-- The `NotificationZone` enum of `NotificationWidget.py`. -/
inductive NotificationZone
  | top_left
  | top_right
  | bottom_left
  | bottom_right
  deriving DecidableEq, Repr

/-- The `NotificationSeverity` enum of `NotificationWidget.py`. -/
inductive NotificationSeverity
  | info
  | success
  | warning
  | error
  | critical
  deriving DecidableEq, Repr

/-- The `DrawerSide` enum of `DrawerWidget.py`. -/
inductive DrawerSide
  | left
  | right
  | top
  | bottom
  deriving DecidableEq, Repr

/-! ## The class-level trackers

`_NotificationManager` keeps `_instances : parent_id -> {zone: [notifications]}`,
`_DrawerTracker` keeps `_instances : parent_id -> {side: [drawers]}` together
with a per-parent `_z_counter`, and `_OverlayTracker` keeps
`_instances : parent_id -> [overlays]` with a per-parent `_z_counter`.
A missing dictionary entry is `none`; the inner per-zone/per-side dictionary
is total because the source initialises every zone/side with an empty list
the moment the parent entry is created. -/

/-- State of `_NotificationManager` (`NotificationWidget.py`). -/
structure NotificationManagerState where
  instances : Nat → Option (NotificationZone → List Nat)

namespace NotificationManagerState

/-- The `{z: [] for z in NotificationZone}` dictionary. -/
def emptyZones : NotificationZone → List Nat := fun _ => []

/-- `_NotificationManager.register`: create the parent entry if missing, then
append the notification to the zone's list. -/
def register (tr : NotificationManagerState) (parent w : Nat)
    (zone : NotificationZone) : NotificationManagerState :=
  let zones := (tr.instances parent).getD emptyZones
  ⟨fun p =>
    if p = parent then
      some (fun z => if z = zone then zones z ++ [w] else zones z)
    else tr.instances p⟩

/-- `_NotificationManager.unregister`: remove the first occurrence of the
notification from the zone's list, when the parent is tracked and the
notification is present (`List.erase` is a no-op otherwise, matching the
`if notification in ...` guard). -/
def unregister (tr : NotificationManagerState) (parent w : Nat)
    (zone : NotificationZone) : NotificationManagerState :=
  match tr.instances parent with
  | none => tr
  | some zones =>
    ⟨fun p =>
      if p = parent then
        some (fun z => if z = zone then (zones z).erase w else zones z)
      else tr.instances p⟩

/-- `_NotificationManager.get_notifications`. -/
def get_notifications (tr : NotificationManagerState) (parent : Nat)
    (zone : NotificationZone) : List Nat :=
  match tr.instances parent with
  | none => []
  | some zones => zones zone

/-- `_NotificationManager.get_index`: list index of the notification in its
zone, `-1` when absent. -/
def get_index (tr : NotificationManagerState) (parent w : Nat)
    (zone : NotificationZone) : Int :=
  let l := tr.get_notifications parent zone
  if w ∈ l then (l.indexOf w : Int) else -1

end NotificationManagerState

/-- State of `_DrawerTracker` (`DrawerWidget.py`). -/
structure DrawerTrackerState where
  instances : Nat → Option (DrawerSide → List Nat)
  z_counter : Nat → Option Int

namespace DrawerTrackerState

/-- `_DrawerTracker.register`: create the parent entry (all sides empty,
counter `0`) if missing, append the drawer to the side's list, bump the
per-parent z-counter and return it. -/
def register (tr : DrawerTrackerState) (parent w : Nat) (side : DrawerSide) :
    Int × DrawerTrackerState :=
  let sides := (tr.instances parent).getD (fun _ => [])
  let ctr := (tr.z_counter parent).getD 0
  let newCtr := ctr + 1
  (newCtr,
   ⟨fun p =>
      if p = parent then
        some (fun s => if s = side then sides s ++ [w] else sides s)
      else tr.instances p,
    fun p => if p = parent then some newCtr else tr.z_counter p⟩)

/-- `_DrawerTracker.unregister`. -/
def unregister (tr : DrawerTrackerState) (parent w : Nat) (side : DrawerSide) :
    DrawerTrackerState :=
  match tr.instances parent with
  | none => tr
  | some sides =>
    ⟨fun p =>
      if p = parent then
        some (fun s => if s = side then (sides s).erase w else sides s)
      else tr.instances p,
     tr.z_counter⟩

/-- `_DrawerTracker.get_drawers_on_side`. -/
def get_drawers_on_side (tr : DrawerTrackerState) (parent : Nat)
    (side : DrawerSide) : List Nat :=
  match tr.instances parent with
  | none => []
  | some sides => sides side

end DrawerTrackerState

/-- State of `_OverlayTracker` (`OverlayWidget.py`). -/
structure OverlayTrackerState where
  instances : Nat → Option (List Nat)
  z_counter : Nat → Option Int

namespace OverlayTrackerState

/-- `_OverlayTracker.register`. -/
def register (tr : OverlayTrackerState) (parent w : Nat) :
    Int × OverlayTrackerState :=
  let l := (tr.instances parent).getD []
  let ctr := (tr.z_counter parent).getD 0
  let newCtr := ctr + 1
  (newCtr,
   ⟨fun p => if p = parent then some (l ++ [w]) else tr.instances p,
    fun p => if p = parent then some newCtr else tr.z_counter p⟩)

/-- `_OverlayTracker.unregister`. -/
def unregister (tr : OverlayTrackerState) (parent w : Nat) :
    OverlayTrackerState :=
  match tr.instances parent with
  | none => tr
  | some l =>
    ⟨fun p => if p = parent then some (l.erase w) else tr.instances p,
     tr.z_counter⟩

/-- `_OverlayTracker.get_overlays`. -/
def get_overlays (tr : OverlayTrackerState) (parent : Nat) : List Nat :=
  (tr.instances parent).getD []

end OverlayTrackerState

end EmuWidgets

namespace EmuWidgets

/-! ## Notification item lifecycle

A `NotifWorld` holds one `NotificationItem` together with the global
`_NotificationManager` state, the id of its parent (when it has one), and
the `NotificationManager._notifications` list of the owning manager widget.
Timers are modelled by their running state (`dismissTimer = some t` means the
single-shot dismiss timer is running with interval `t`), and `outAnims`
counts how many dismiss (slide-out) animations were started; the `finished`
signal of each started dismiss animation is connected to `_cleanup` once, so
`outAnims` bounds the number of `_cleanup` runs. -/

/-- The `SeverityStyle` class of `NotificationWidget.py` (color strings and
auto-dismiss duration). -/
structure SeverityStyle where
  bg : String
  border : String
  text : String
  duration : Int

/-- The `SeverityStyle._DEFAULTS` table / `SeverityStyle.default`. -/
def SeverityStyle.default : NotificationSeverity → SeverityStyle
  | .info => ⟨"#3498db", "#2980b9", "#ffffff", 3000⟩
  | .success => ⟨"#27ae60", "#1e8449", "#ffffff", 3000⟩
  | .warning => ⟨"#f39c12", "#d68910", "#ffffff", 5000⟩
  | .error => ⟨"#e74c3c", "#c0392b", "#ffffff", 7000⟩
  | .critical => ⟨"#8e44ad", "#6c3483", "#ffffff", 0⟩

/-- The module-level `SEVERITY_DURATIONS` dictionary. -/
def SEVERITY_DURATIONS : NotificationSeverity → Int
  | .info => 3000
  | .success => 3000
  | .warning => 5000
  | .error => 7000
  | .critical => 0

/-- Duration resolution in `NotificationItem.__init__`: the explicit
`duration` argument when not `None`, else the provided style's duration when
a style was given, else `SEVERITY_DURATIONS[severity]`. -/
def resolve_duration (duration : Option Int) (style : Option SeverityStyle)
    (severity : NotificationSeverity) : Int :=
  match duration with
  | some d => d
  | none =>
    match style with
    | some st => st.duration
    | none => SEVERITY_DURATIONS severity

/-- State of one `NotificationItem` plus the global tracker and the owning
`NotificationManager` open list. -/
structure NotifWorld where
  tracker : NotificationManagerState
  parent : Option Nat
  itemId : Nat
  zone : NotificationZone
  closing : Bool
  hovered : Bool
  paused : Bool
  duration : Int
  remaining : Int
  dismissTimer : Option Int
  elapsedRunning : Bool
  outAnims : Nat
  filterInstalled : Bool
  managerList : List Nat

namespace NotifWorld

/-- `NotificationItem.show_notification`: bail out without a parent;
otherwise register with the tracker, install the event filter on the parent,
position, show, animate in, and start both timers iff `duration > 0`. -/
def show_notification (w : NotifWorld) : NotifWorld :=
  match w.parent with
  | none => w
  | some p =>
    let w := { w with
      tracker := w.tracker.register p w.itemId w.zone,
      filterInstalled := true }
    if 0 < w.duration then
      { w with dismissTimer := some w.duration, elapsedRunning := true }
    else w

/-- `NotificationItem._start_dismiss`: return immediately when `_closing` is
already set; otherwise set it, stop both timers, and start the slide-out and
fade-out animations (connecting `_cleanup` to the slide-out's `finished`). -/
def start_dismiss (w : NotifWorld) : NotifWorld :=
  if w.closing then w
  else
    { w with
      closing := true,
      dismissTimer := none,
      elapsedRunning := false,
      outAnims := w.outAnims + 1 }

/-- `NotificationItem._cleanup`: unregister from the tracker and remove the
event filter (when parented), then emit `closed`, upon which
`NotificationManager._on_notification_closed` removes the item from its
open list. -/
def cleanup (w : NotifWorld) : NotifWorld :=
  let w :=
    match w.parent with
    | some p =>
      { w with
        tracker := w.tracker.unregister p w.itemId w.zone,
        filterInstalled := false }
    | none => w
  { w with managerList := w.managerList.erase w.itemId }

/-- `NotificationItem._tick`: decrement the remaining time by the 100 ms
tick unless paused or without auto-dismiss. -/
def tick (w : NotifWorld) : NotifWorld :=
  if w.paused = false ∧ 0 < w.duration then
    { w with remaining := w.remaining - 100 }
  else w

/-- `NotificationItem.enterEvent`: record the hover; when auto-dismissing and
not closing, pause and stop the dismiss timer. -/
def enterEvent (w : NotifWorld) : NotifWorld :=
  let w := { w with hovered := true }
  if 0 < w.duration ∧ w.closing = false then
    { w with paused := true, dismissTimer := none }
  else w

/-- `NotificationItem.leaveEvent`: clear the hover; when auto-dismissing, not
closing and paused, unpause and either restart the dismiss timer with the
remaining time (when positive) or start the dismissal immediately. -/
def leaveEvent (w : NotifWorld) : NotifWorld :=
  let w := { w with hovered := false }
  if 0 < w.duration ∧ w.closing = false ∧ w.paused = true then
    let w := { w with paused := false }
    if 0 < w.remaining then
      { w with dismissTimer := some w.remaining }
    else
      w.start_dismiss
  else w

end NotifWorld

/-! ## Drawer lifecycle -/

/-- State of one `DrawerWidget` plus the global `_DrawerTracker` and the
owning `DrawerManager` open list.  `outAnims` counts started slide-out
(close) animations, each of which has `_cleanup` connected to `finished`. -/
structure DrawerWorld where
  tracker : DrawerTrackerState
  parent : Option Nat
  drawerId : Nat
  sticky : Bool
  side : DrawerSide
  closing : Bool
  animRunning : Bool
  outAnims : Nat
  contentWidget : Option Nat
  hasFrame : Bool
  filterInstalled : Bool
  z_index : Int
  managerList : List Nat

namespace DrawerWorld

/-- `DrawerWidget.show_widget`: store side, register with the tracker (when
parented), replace any previous content widget and frame with the new ones,
install the event filter on the parent, and start the slide-in animation. -/
def show_widget (w : DrawerWorld) (widget : Nat) (side : DrawerSide) :
    DrawerWorld :=
  let w := { w with side := side }
  let w :=
    match w.parent with
    | some p =>
      let r := w.tracker.register p w.drawerId side
      { w with tracker := r.2, z_index := r.1 }
    | none => w
  let w := { w with contentWidget := some widget, hasFrame := true }
  let w :=
    match w.parent with
    | some _ => { w with filterInstalled := true }
    | none => w
  { w with animRunning := true }

/-- `DrawerWidget._animate_out`: bail out without a content frame, otherwise
start the slide-out animation and connect `_cleanup` to its `finished`. -/
def animate_out (w : DrawerWorld) : DrawerWorld :=
  if w.hasFrame = false then w
  else { w with animRunning := true, outAnims := w.outAnims + 1 }

/-- `DrawerWidget._close_drawer`: return immediately when `_closing` is
already set; otherwise set it, stop a running animation and animate out. -/
def close_drawer (w : DrawerWorld) : DrawerWorld :=
  if w.closing then w
  else animate_out { w with closing := true, animRunning := false }

/-- `DrawerWidget._cleanup`: remove the event filter and unregister from the
tracker for the current side (when parented), release the content widget and
frame, emit `closed`, upon which `DrawerManager._on_drawer_closed` removes
the drawer from its open list. -/
def cleanup (w : DrawerWorld) : DrawerWorld :=
  let w :=
    match w.parent with
    | some p =>
      { w with
        filterInstalled := false,
        tracker := w.tracker.unregister p w.drawerId w.side }
    | none => w
  let w := { w with contentWidget := none, hasFrame := false }
  { w with managerList := w.managerList.erase w.drawerId }

end DrawerWorld

/-! ## Overlay lifecycle -/

/-- State of one `OverlayWidget` plus the global `_OverlayTracker` and the
owning `OverlayManager` open list. -/
structure OverlayWorld where
  tracker : OverlayTrackerState
  parent : Option Nat
  overlayId : Nat
  sticky : Bool
  nobackground : Bool
  closing : Bool
  animRunning : Bool
  outAnims : Nat
  contentWidget : Option Nat
  filterInstalled : Bool
  z_index : Int
  managerList : List Nat

namespace OverlayWorld

/-- `OverlayWidget.show_widget`: register with the tracker (when parented),
replace any previous content widget, position, show, and start the fade-in
animation.  The event filter was installed on the parent in `__init__`. -/
def show_widget (w : OverlayWorld) (widget : Nat) : OverlayWorld :=
  let w :=
    match w.parent with
    | some p =>
      let r := w.tracker.register p w.overlayId
      { w with tracker := r.2, z_index := r.1 }
    | none => w
  let w := { w with contentWidget := some widget }
  { w with animRunning := true }

/-- `OverlayWidget._close_overlay`: return immediately when `_closing` is
already set; otherwise set it, stop a running animation, and start the
fade-out animation with `_cleanup` connected to its `finished`. -/
def close_overlay (w : OverlayWorld) : OverlayWorld :=
  if w.closing then w
  else
    { w with
      closing := true,
      animRunning := true,
      outAnims := w.outAnims + 1 }

/-- `OverlayWidget._cleanup`: unregister from the tracker and remove the
event filter (when parented), release the content widget, emit `closed`,
upon which `OverlayManager._on_overlay_closed` removes the overlay from its
open list. -/
def cleanup (w : OverlayWorld) : OverlayWorld :=
  let w :=
    match w.parent with
    | some p =>
      { w with
        tracker := w.tracker.unregister p w.overlayId,
        filterInstalled := false }
    | none => w
  let w := { w with contentWidget := none }
  { w with managerList := w.managerList.erase w.overlayId }

end OverlayWorld

/-! ## Event filtering and geometry

Event filters receive `(obj, event)`; we model whether `obj == self.parent()`
by a `Bool` and the event type by a small enum.  Geometry computed by
`_position_content` / `_calculate_target_position` is expressed in the
parent's local coordinates.  Python floor division `//` is `Int.fdiv`. -/

/-- Relevant `QEvent` types. -/
inductive QEventType
  | resize
  | mouseMove
  | paint
  | keyPress
  | other
  deriving DecidableEq, Repr

/-- A `QPoint` with integer coordinates. -/
structure PPoint where
  x : Int
  y : Int
  deriving DecidableEq, Repr

/-- A `QRect` with integer coordinates. -/
structure QRectI where
  x : Int
  y : Int
  w : Int
  h : Int
  deriving DecidableEq, Repr

/-- Layout produced by `OverlayWidget._position_content`: the overlay's own
geometry, the content widget's position (if a content widget exists) and
the close button's position. -/
structure OverlayLayout where
  widgetGeom : QRectI
  contentPos : Option PPoint
  closePos : PPoint
  deriving DecidableEq, Repr

/-- `EmuPyside6Widgets.OverlayWidget._position_content`.  In `nobackground`
mode the overlay wraps the content with 30 px padding (and nothing changes
without a content widget); in standard mode the overlay covers the parent,
the content is centered with `//` arithmetic, and the close button sits in
the top-right corner with a 20 px margin. -/
def overlay_position_content (nobackground : Bool) (parentW parentH : Int)
    (content : Option (Int × Int)) (closeW closeH : Int)
    (prev : OverlayLayout) : OverlayLayout :=
  match nobackground with
  | true =>
    match content with
    | none => prev
    | some (cw, ch) =>
      let center_x := (parentW - cw).fdiv 2
      let center_y := (parentH - ch).fdiv 2
      let padding : Int := 30
      { widgetGeom :=
          ⟨center_x - padding, center_y - padding,
           cw + padding * 2, ch + padding * 2⟩,
        contentPos := some ⟨padding, padding⟩,
        closePos := ⟨cw + padding - 5, padding - closeH + 5⟩ }
  | false =>
    let contentPos :=
      match content with
      | some (cw, ch) =>
        some (⟨parentW.fdiv 2 - cw.fdiv 2, parentH.fdiv 2 - ch.fdiv 2⟩ : PPoint)
      | none => prev.contentPos
    { widgetGeom := ⟨0, 0, parentW, parentH⟩,
      contentPos := contentPos,
      closePos := ⟨parentW - closeW - 20, 20⟩ }

/-- `CasPyside6Widgets.OverlayWidget._position_content` (the legacy
overlay): cover the parent, center the content, close button top-right with
a 20 px margin. -/
def cas_overlay_position_content (parentW parentH : Int)
    (content : Option (Int × Int)) (closeW _closeH : Int)
    (prev : OverlayLayout) : OverlayLayout :=
  let contentPos :=
    match content with
    | some (cw, ch) =>
      some (⟨parentW.fdiv 2 - cw.fdiv 2, parentH.fdiv 2 - ch.fdiv 2⟩ : PPoint)
    | none => prev.contentPos
  { widgetGeom := ⟨0, 0, parentW, parentH⟩,
    contentPos := contentPos,
    closePos := ⟨parentW - closeW - 20, 20⟩ }

/-- Geometry-relevant state of one `OverlayWidget`. -/
structure OverlayUIState where
  nobackground : Bool
  content : Option (Int × Int)
  closeW : Int
  closeH : Int
  layout : OverlayLayout
  deriving DecidableEq, Repr

/-- `OverlayWidget.eventFilter`: reposition on a `Resize` event coming from
the parent; ignore everything else. -/
def overlayEventFilter (st : OverlayUIState) (sourceIsParent : Bool)
    (ev : QEventType) (parentW parentH : Int) : OverlayUIState :=
  if sourceIsParent = true ∧ ev = QEventType.resize then
    { st with
      layout := overlay_position_content st.nobackground parentW parentH
        st.content st.closeW st.closeH st.layout }
  else st

/-- A `QPoint` with rational coordinates (for the drawer geometry, whose
size limit involves the float expression `parent_width * 0.8`). -/
structure PPointQ where
  x : ℚ
  y : ℚ
  deriving DecidableEq, Repr

/-- A `QRect` with rational coordinates. -/
structure QRectQ where
  x : ℚ
  y : ℚ
  w : ℚ
  h : ℚ
  deriving DecidableEq, Repr

/-- Layout produced by `DrawerWidget._position_content`. -/
structure DrawerLayout where
  widgetGeom : QRectQ
  frameGeom : Option QRectQ
  closePos : Option PPointQ
  deriving DecidableEq, Repr

/-- `DrawerWidget._position_content`.  The drawer size limit is
`min(drawer_size, min(parent_extent * 0.8, parent_extent - 100))` (the float
`0.8` modelled as the exact rational `8/10`).  In sticky mode the widget
itself is only the drawer panel and the frame fills it; otherwise the widget
covers the parent and the frame is the panel.  The close button is
positioned per side when a frame and a close button exist. -/
def drawer_position_content (sticky : Bool) (side : DrawerSide)
    (drawer_size : ℚ) (parentW parentH : ℚ) (hasFrame : Bool)
    (closeBtn : Option (ℚ × ℚ)) : DrawerLayout :=
  let actual : ℚ :=
    match side with
    | .left | .right =>
      min drawer_size (min (parentW * (8 / 10)) (parentW - 100))
    | .top | .bottom =>
      min drawer_size (min (parentH * (8 / 10)) (parentH - 100))
  match sticky with
  | true =>
    let widgetGeom : QRectQ :=
      match side with
      | .right => ⟨parentW - actual, 0, actual, parentH⟩
      | .left => ⟨0, 0, actual, parentH⟩
      | .top => ⟨0, 0, parentW, actual⟩
      | .bottom => ⟨0, parentH - actual, parentW, actual⟩
    if hasFrame then
      let closePos : Option PPointQ :=
        match closeBtn with
        | none => none
        | some (bw, bh) =>
          some (match side with
            | .right => ⟨5, 5⟩
            | .left => ⟨widgetGeom.w - bw - 5, 5⟩
            | .top => ⟨widgetGeom.w - bw - 5, widgetGeom.h - bh - 5⟩
            | .bottom => ⟨widgetGeom.w - bw - 5, 5⟩)
      { widgetGeom := widgetGeom,
        frameGeom := some ⟨0, 0, widgetGeom.w, widgetGeom.h⟩,
        closePos := closePos }
    else
      { widgetGeom := widgetGeom, frameGeom := none, closePos := none }
  | false =>
    let widgetGeom : QRectQ := ⟨0, 0, parentW, parentH⟩
    if hasFrame then
      let frameGeom : QRectQ :=
        match side with
        | .right => ⟨parentW - actual, 0, actual, parentH⟩
        | .left => ⟨0, 0, actual, parentH⟩
        | .top => ⟨0, 0, parentW, actual⟩
        | .bottom => ⟨0, parentH - actual, parentW, actual⟩
      let closePos : Option PPointQ :=
        match closeBtn with
        | none => none
        | some (bw, bh) =>
          some (match side with
            | .right => ⟨5, 5⟩
            | .left => ⟨actual - bw - 5, 5⟩
            | .top => ⟨parentW - bw - 5, actual - bh - 5⟩
            | .bottom => ⟨parentW - bw - 5, 5⟩)
      { widgetGeom := widgetGeom,
        frameGeom := some frameGeom,
        closePos := closePos }
    else
      { widgetGeom := widgetGeom, frameGeom := none, closePos := none }

/-- Geometry-relevant state of one `DrawerWidget`. -/
structure DrawerUIState where
  sticky : Bool
  side : DrawerSide
  drawer_size : ℚ
  hasFrame : Bool
  closeBtn : Option (ℚ × ℚ)
  layout : DrawerLayout
  deriving DecidableEq, Repr

/-- `DrawerWidget.eventFilter`: reposition on a `Resize` event coming from
the parent; ignore everything else. -/
def drawerEventFilter (st : DrawerUIState) (objIsParent : Bool)
    (ev : QEventType) (parentW parentH : ℚ) : DrawerUIState :=
  if objIsParent = true ∧ ev = QEventType.resize then
    { st with
      layout := drawer_position_content st.sticky st.side st.drawer_size
        parentW parentH st.hasFrame st.closeBtn }
  else st

/-- The `for i, notif in enumerate(notifications): if i < index: ...` loop in
`NotificationItem._calculate_target_position`, accumulating
`notif.height() + spacing` for every entry strictly before `index`. -/
def cumulative_height (notifications : List Nat) (index : Int)
    (heightOf : Nat → Int) (spacing : Int) : Int :=
  notifications.enum.foldl
    (fun acc p => if (p.1 : Int) < index then acc + (heightOf p.2 + spacing) else acc)
    0

/-- `NotificationItem._calculate_target_position`: margin 15, spacing 10,
index from `_NotificationManager.get_index` (clamped to `0` when negative),
x anchored to the left or right edge, and y offset by the cumulative height
of the notifications stacked before this one. -/
def calculate_target_position (parentW parentH : Int)
    (zone : NotificationZone) (selfW selfH : Int)
    (tr : NotificationManagerState) (parentId selfId : Nat)
    (heightOf : Nat → Int) : PPoint :=
  let margin : Int := 15
  let spacing : Int := 10
  let idx := tr.get_index parentId selfId zone
  let index : Int := if idx < 0 then 0 else idx
  let notifications := tr.get_notifications parentId zone
  let cum := cumulative_height notifications index heightOf spacing
  match zone with
  | .top_right => ⟨parentW - selfW - margin, margin + cum⟩
  | .top_left => ⟨margin, margin + cum⟩
  | .bottom_right => ⟨parentW - selfW - margin, parentH - margin - selfH - cum⟩
  | .bottom_left => ⟨margin, parentH - margin - selfH - cum⟩

/-- Geometry-relevant state of one `NotificationItem`; `animTarget` is the
end value of the running position animation, when any. -/
structure NotifUIState where
  closing : Bool
  zone : NotificationZone
  width : Int
  height : Int
  parentId : Nat
  itemId : Nat
  animTarget : Option PPoint
  deriving DecidableEq, Repr

/-- `NotificationItem.eventFilter`: on a `Resize` event from the parent,
animate to the freshly recalculated target position unless closing. -/
def notifEventFilter (st : NotifUIState) (objIsParent : Bool)
    (ev : QEventType) (tr : NotificationManagerState) (parentW parentH : Int)
    (heightOf : Nat → Int) : NotifUIState :=
  if objIsParent = true ∧ ev = QEventType.resize then
    if st.closing = false then
      { st with
        animTarget := some (calculate_target_position parentW parentH st.zone
          st.width st.height tr st.parentId st.itemId heightOf) }
    else st
  else st

/-! ## Look-and-feel utilities (`utils/lookandfeel.py`)

`KDEColorScheme._parse_color`, `KDEColorScheme.apply_scheme`, and
`IconTheme.get_icon`.  The Python `int(...)` conversion is modelled for
ASCII strings: optional surrounding whitespace, an optional sign, and a
nonempty digit run in which single underscores may appear between digits.
The filesystem and the Qt icon database are passed in as environments. -/

/-- Parse a digit run with Python's underscore rule (`int("1_2") = 12`,
`int("1__2")`, `int("_1")`, `int("1_")` raise): `prevDigit` records whether
the previous character was a digit, so an underscore is accepted only
between digits. -/
def pyParseDigitsGo (prevDigit : Bool) (acc : Nat) : List Char → Option Nat
  | [] => if prevDigit then some acc else none
  | c :: rest =>
    if c.isDigit then
      pyParseDigitsGo true (acc * 10 + (c.toNat - 48)) rest
    else if c = '_' ∧ prevDigit = true then
      pyParseDigitsGo false acc rest
    else none

/-- Python `int(s)` on an ASCII string: strip whitespace, optional sign,
digit run. -/
def pyIntOfString (s : String) : Option Int :=
  let t := s.trim
  match t.data with
  | '+' :: rest => (pyParseDigitsGo false 0 rest).map (fun n => (n : Int))
  | '-' :: rest => (pyParseDigitsGo false 0 rest).map (fun n => -(n : Int))
  | l => (pyParseDigitsGo false 0 l).map (fun n => (n : Int))

/-- Result of `QColor(r, g, b)` / `QColor(r, g, b, a)` as constructed from
the arguments of `_parse_color` (the constructor itself never raises for
ints). -/
inductive ParsedColor
  | rgb (r g b : Int)
  | rgba (r g b a : Int)
  deriving DecidableEq, Repr

/-- The `[int(p.strip()) for p in color_str.split(',')]` comprehension:
`none` when any part raises `ValueError`. -/
def parseParts : List String → Option (List Int)
  | [] => some []
  | p :: rest =>
    match pyIntOfString p, parseParts rest with
    | some v, some vs => some (v :: vs)
    | _, _ => none

/-- The body of `KDEColorScheme._parse_color` applied to the comma-split
parts: convert every part with `int` and build a color only from exactly
3 or 4 parts; anything else (including a `ValueError` from `int`) yields
`None`. -/
def parseColorParts (parts0 : List String) : Option ParsedColor :=
  match parseParts parts0 with
  | none => none
  | some parts =>
    match parts with
    | [r, g, b] => some (.rgb r g b)
    | [r, g, b, a] => some (.rgba r g b a)
    | _ => none

/-- `KDEColorScheme._parse_color`: split on commas and parse the parts. -/
def parse_color (colorStr : String) : Option ParsedColor :=
  parseColorParts (colorStr.splitOn ",")

/-- `QPalette` color roles used by `apply_scheme`. -/
inductive QPaletteRole
  | window
  | windowText
  | base
  | alternateBase
  | text
  | placeholderText
  | link
  | linkVisited
  | button
  | buttonText
  | highlight
  | highlightedText
  | toolTipBase
  | toolTipText
  | brightText
  | light
  | midlight
  | mid
  | dark
  | shadow
  deriving DecidableEq, Repr

/-- Palette color group: the one-argument `setColor` overload versus the
`QPalette.Disabled` group. -/
inductive QPaletteGroup
  | allGroups
  | disabled
  deriving DecidableEq, Repr

/-- A color value as computed by `apply_scheme`: either a parsed color or a
`lighter`/`darker` derivation from one (the `QColor` shade arithmetic is
kept symbolic). -/
inductive ColorExpr
  | raw (c : ParsedColor)
  | lighter (c : ParsedColor) (factor : Int)
  | darker (c : ParsedColor) (factor : Int)
  deriving DecidableEq, Repr

/-- One `palette.setColor(...)` call. -/
structure PaletteAssign where
  group : QPaletteGroup
  role : QPaletteRole
  color : ColorExpr
  deriving DecidableEq, Repr

/-- Parsed scheme data (`_parse_scheme_file` output): sections mapping keys
to value strings. -/
abbrev SchemeData := List (String × List (String × String))

/-- A section lookup in the parsed scheme dictionary. -/
def lookupSection (colors : SchemeData) (sec : String) :
    Option (List (String × String)) :=
  (colors.find? (fun kv => kv.1 == sec)).map (fun kv => kv.2)

/-- A key lookup inside a section. -/
def lookupKey (kvs : List (String × String)) (k : String) : Option String :=
  (kvs.find? (fun kv => kv.1 == k)).map (fun kv => kv.2)

/-- The `_KDE_TO_QPALETTE` mapping. -/
def KDE_TO_QPALETTE : List ((String × String) × List QPaletteRole) :=
  [(("Colors:Window", "BackgroundNormal"), [.window]),
   (("Colors:Window", "ForegroundNormal"), [.windowText]),
   (("Colors:View", "BackgroundNormal"), [.base]),
   (("Colors:View", "BackgroundAlternate"), [.alternateBase]),
   (("Colors:View", "ForegroundNormal"), [.text]),
   (("Colors:View", "ForegroundInactive"), [.placeholderText]),
   (("Colors:View", "ForegroundLink"), [.link]),
   (("Colors:View", "ForegroundVisited"), [.linkVisited]),
   (("Colors:Button", "BackgroundNormal"), [.button]),
   (("Colors:Button", "ForegroundNormal"), [.buttonText]),
   (("Colors:Selection", "BackgroundNormal"), [.highlight]),
   (("Colors:Selection", "ForegroundNormal"), [.highlightedText]),
   (("Colors:Tooltip", "BackgroundNormal"), [.toolTipBase]),
   (("Colors:Tooltip", "ForegroundNormal"), [.toolTipText])]

/-- The `for (section, key), roles in cls._KDE_TO_QPALETTE.items()` loop. -/
def mappedAssigns (colors : SchemeData) : List PaletteAssign :=
  KDE_TO_QPALETTE.foldl
    (fun acc entry =>
      match lookupSection colors entry.1.1 with
      | none => acc
      | some kvs =>
        match lookupKey kvs entry.1.2 with
        | none => acc
        | some str =>
          match parse_color str with
          | none => acc
          | some c =>
            acc ++ entry.2.map (fun role => ⟨.allGroups, role, .raw c⟩))
    []

/-- The `BrightText` derivation from `Colors:View / ForegroundActive`. -/
def brightTextAssigns (colors : SchemeData) : List PaletteAssign :=
  match lookupSection colors "Colors:View" with
  | none => []
  | some view =>
    match lookupKey view "ForegroundActive" with
    | none => []
    | some s =>
      match parse_color s with
      | none => []
      | some c => [⟨.allGroups, .brightText, .raw c⟩]

/-- The light/midlight/mid/dark/shadow shades derived from the window
background. -/
def shadeAssigns (colors : SchemeData) : List PaletteAssign :=
  match lookupSection colors "Colors:Window" with
  | none => []
  | some window =>
    let bgStr := (lookupKey window "BackgroundNormal").getD "255,255,255"
    match parse_color bgStr with
    | none => []
    | some bg =>
      [⟨.allGroups, .light, .lighter bg 150⟩,
       ⟨.allGroups, .midlight, .lighter bg 125⟩,
       ⟨.allGroups, .mid, .darker bg 125⟩,
       ⟨.allGroups, .dark, .darker bg 150⟩,
       ⟨.allGroups, .shadow, .darker bg 200⟩]

/-- The disabled-state colors from `ColorEffects:Disabled / Color`. -/
def disabledAssigns (colors : SchemeData) : List PaletteAssign :=
  match lookupSection colors "ColorEffects:Disabled" with
  | none => []
  | some disabled =>
    let cStr := (lookupKey disabled "Color").getD "120,120,120"
    match parse_color cStr with
    | none => []
    | some c =>
      [⟨.disabled, .windowText, .raw c⟩,
       ⟨.disabled, .text, .raw c⟩,
       ⟨.disabled, .buttonText, .raw c⟩]

/-- The full palette built by the success path of `apply_scheme`. -/
def build_palette (colors : SchemeData) : List PaletteAssign :=
  mappedAssigns colors ++ brightTextAssigns colors
    ++ shadeAssigns colors ++ disabledAssigns colors

/-- `KDEColorScheme.apply_scheme`, taking the parsed scheme data (the result
of `get_scheme_colors`, `none` when the scheme file is missing or fails to
parse) and the running application with its palette.  Returns the success
flag and the application palette afterwards.  The Python guard
`if not colors` is also true for an empty parse result. -/
def apply_scheme (colors : Option SchemeData)
    (app : Option (List PaletteAssign)) :
    Bool × Option (List PaletteAssign) :=
  match colors with
  | none => (false, app)
  | some [] => (false, app)
  | some cs =>
    match app with
    | none => (false, app)
    | some _ => (true, some (build_palette cs))

/-- A `QIcon` as produced by `get_icon`: loaded from a file path, resolved
from the current theme, or the null icon `QIcon()`. -/
inductive PyIcon
  | fromFile (path : String)
  | themed (nm : String)
  | nullIcon
  deriving DecidableEq, Repr

/-- `QIcon.fromTheme` against an environment telling which names resolve:
a miss yields an icon for which `isNull()` holds. -/
def fromTheme (themedEnv : String → Bool) (nm : String) : PyIcon :=
  if themedEnv nm then .themed nm else .nullIcon

/-- `QIcon.isNull`. -/
def iconIsNull : PyIcon → Bool
  | .nullIcon => true
  | _ => false

/-- `IconTheme.get_icon`: with a theme override, resolve through
`get_icon_path` (environment `pathEnv`), falling back to the fallback name
and finally to the null icon; without one, use `QIcon.fromTheme` and retry
the fallback when the result is null. -/
def get_icon (pathEnv : String → Nat → String → Option String)
    (themedEnv : String → Bool) (name : String) (fallback : Option String)
    (theme : Option String) (size : Nat) : PyIcon :=
  match theme with
  | some t =>
    match pathEnv name size t with
    | some p => .fromFile p
    | none =>
      match fallback with
      | some fb =>
        match pathEnv fb size t with
        | some p => .fromFile p
        | none => .nullIcon
      | none => .nullIcon
  | none =>
    let icon := fromTheme themedEnv name
    match fallback with
    | some fb => if iconIsNull icon then fromTheme themedEnv fb else icon
    | none => icon

/-! ## Concrete example states used by witnesses and counterexamples -/

/-- A freshly constructed `NotificationItem` (id 7, parent 0, top-right
zone, no auto-dismiss) whose manager lists it once. -/
def cexNotifC2 : NotifWorld :=
  { tracker := ⟨fun _ => none⟩, parent := some 0, itemId := 7,
    zone := .top_right, closing := false, hovered := false, paused := false,
    duration := 0, remaining := 0, dismissTimer := none,
    elapsedRunning := false, outAnims := 0, filterInstalled := false,
    managerList := [7] }

/-- A freshly constructed notification for the C1 witness. -/
def cexNotifC1 : NotifWorld :=
  { tracker := ⟨fun _ => none⟩, parent := some 0, itemId := 3,
    zone := .top_left, closing := false, hovered := false, paused := false,
    duration := 3000, remaining := 3000, dismissTimer := some 3000,
    elapsedRunning := true, outAnims := 0, filterInstalled := true,
    managerList := [3] }

/-- A hovered (paused) notification with time remaining, for the C3
witness. -/
def cexNotifC3 : NotifWorld :=
  { tracker := ⟨fun _ => none⟩, parent := some 0, itemId := 4,
    zone := .top_right, closing := false, hovered := true, paused := true,
    duration := 3000, remaining := 1200, dismissTimer := none,
    elapsedRunning := true, outAnims := 0, filterInstalled := true,
    managerList := [4] }

/-- A freshly constructed notification with the WARNING default duration,
for the C9 witness. -/
def cexNotifC9 : NotifWorld :=
  { tracker := ⟨fun _ => none⟩, parent := some 0, itemId := 9,
    zone := .bottom_left, closing := false, hovered := false, paused := false,
    duration := 5000, remaining := 5000, dismissTimer := none,
    elapsedRunning := false, outAnims := 0, filterInstalled := false,
    managerList := [9] }

/-- A shown (singly registered) notification, for the C2 witness. -/
def cexNotifShown : NotifWorld := cexNotifC2.show_notification

/-- A fresh drawer world (id 11, parent 0). -/
def cexDrawerFresh : DrawerWorld :=
  { tracker := ⟨fun _ => none, fun _ => none⟩, parent := some 0,
    drawerId := 11, sticky := false, side := .right, closing := false,
    animRunning := false, outAnims := 0, contentWidget := none,
    hasFrame := false, filterInstalled := false, z_index := 0,
    managerList := [11] }

/-- A shown (singly registered) drawer, for the C2 witness. -/
def cexDrawerShown : DrawerWorld := cexDrawerFresh.show_widget 21 .right

/-- A fresh overlay world (id 13, parent 0). -/
def cexOverlayFresh : OverlayWorld :=
  { tracker := ⟨fun _ => none, fun _ => none⟩, parent := some 0,
    overlayId := 13, sticky := false, nobackground := false,
    closing := false, animRunning := false, outAnims := 0,
    contentWidget := none, filterInstalled := true, z_index := 0,
    managerList := [13] }

/-- A shown (singly registered) overlay, for the C2 witness. -/
def cexOverlayShown : OverlayWorld := cexOverlayFresh.show_widget 23

/-- A tracker with three notifications (ids 5, 6, 7) stacked top-left under
parent 0, for the C5 witness. -/
def cexTrackerC5 : NotificationManagerState :=
  ⟨fun p =>
    if p = 0 then
      some (fun z => if z = NotificationZone.top_left then [5, 6, 7] else [])
    else none⟩

/-- The same stacked tracker, for the C6 witness. -/
def cexTrackerC6 : NotificationManagerState :=
  ⟨fun p =>
    if p = 0 then
      some (fun z => if z = NotificationZone.top_left then [5, 6, 7] else [])
    else none⟩

/-- A non-sticky right drawer UI state, for the C6 witness. -/
def cexDrawerUI : DrawerUIState :=
  { sticky := false, side := .right, drawer_size := 400, hasFrame := true,
    closeBtn := some (24, 24),
    layout := { widgetGeom := ⟨0, 0, 0, 0⟩, frameGeom := none, closePos := none } }

/-- A standard-mode overlay UI state with a 300 by 200 content widget, for
the C6 witness. -/
def cexOverlayUI : OverlayUIState :=
  { nobackground := false, content := some (300, 200), closeW := 24,
    closeH := 24,
    layout := { widgetGeom := ⟨0, 0, 0, 0⟩, contentPos := none,
                closePos := ⟨0, 0⟩ } }

/-- A not-closing notification UI state (id 7, third in the top-left
stack), for the C6 witness. -/
def cexNotifUI : NotifUIState :=
  { closing := false, zone := .top_left, width := 320, height := 40,
    parentId := 0, itemId := 7, animTarget := none }

/-! ## Claim C4: per-parent, per-zone/side tracker isolation -/

/-- C4: each tracker keeps one list per parent and zone/side in registration
order: `register` appends the element to exactly the one list for that parent
and zone/side, `unregister` removes (the first occurrence of) it from exactly
that list, and no `register` or `unregister` ever modifies the list of a
different parent or a different zone/side.  Stated for
`_NotificationManager`, `_DrawerTracker`, and `_OverlayTracker`. -/
theorem C4_tracker_isolation
    (tr : NotificationManagerState) (dtr : DrawerTrackerState)
    (otr : OverlayTrackerState)
    (p p2 w : Nat) (z z2 : NotificationZone) (s s2 : DrawerSide)
    (hpz : p ≠ p2 ∨ z ≠ z2) (hps : p ≠ p2 ∨ s ≠ s2) (hp : p ≠ p2) :
    ((tr.register p w z).get_notifications p z
        = tr.get_notifications p z ++ [w]
      ∧ (tr.register p w z).get_notifications p2 z2
        = tr.get_notifications p2 z2
      ∧ (tr.unregister p w z).get_notifications p z
        = (tr.get_notifications p z).erase w
      ∧ (tr.unregister p w z).get_notifications p2 z2
        = tr.get_notifications p2 z2)
    ∧ ((dtr.register p w s).2.get_drawers_on_side p s
        = dtr.get_drawers_on_side p s ++ [w]
      ∧ (dtr.register p w s).2.get_drawers_on_side p2 s2
        = dtr.get_drawers_on_side p2 s2
      ∧ (dtr.unregister p w s).get_drawers_on_side p s
        = (dtr.get_drawers_on_side p s).erase w
      ∧ (dtr.unregister p w s).get_drawers_on_side p2 s2
        = dtr.get_drawers_on_side p2 s2)
    ∧ ((otr.register p w).2.get_overlays p = otr.get_overlays p ++ [w]
      ∧ (otr.register p w).2.get_overlays p2 = otr.get_overlays p2
      ∧ (otr.unregister p w).get_overlays p = (otr.get_overlays p).erase w
      ∧ (otr.unregister p w).get_overlays p2 = otr.get_overlays p2) := by
  refine ⟨⟨?_, ?_, ?_, ?_⟩, ⟨?_, ?_, ?_, ?_⟩, ⟨?_, ?_, ?_, ?_⟩⟩
  · simp only [NotificationManagerState.register,
      NotificationManagerState.get_notifications]
    cases h : tr.instances p with
    | none => simp [h, NotificationManagerState.emptyZones]
    | some zones => simp [h]
  · simp only [NotificationManagerState.register,
      NotificationManagerState.get_notifications]
    rcases hpz with hne | hne
    · simp [if_neg (Ne.symm hne)]
    · rcases Decidable.em (p2 = p) with rfl | hp2
      · cases h : tr.instances p2 with
        | none => simp [h, if_neg (Ne.symm hne), NotificationManagerState.emptyZones]
        | some zones => simp [h, if_neg (Ne.symm hne)]
      · simp [if_neg hp2]
  · simp only [NotificationManagerState.unregister]
    cases h : tr.instances p with
    | none => simp [NotificationManagerState.get_notifications, h]
    | some zones => simp [NotificationManagerState.get_notifications, h]
  · simp only [NotificationManagerState.unregister]
    cases h : tr.instances p with
    | none => rfl
    | some zones =>
      simp only [NotificationManagerState.get_notifications]
      rcases hpz with hne | hne
      · simp [if_neg (Ne.symm hne)]
      · rcases Decidable.em (p2 = p) with rfl | hp2
        · simp [h, if_neg (Ne.symm hne)]
        · simp [if_neg hp2]
  · simp only [DrawerTrackerState.register, DrawerTrackerState.get_drawers_on_side]
    cases h : dtr.instances p with
    | none => simp [h]
    | some sides => simp [h]
  · simp only [DrawerTrackerState.register, DrawerTrackerState.get_drawers_on_side]
    rcases hps with hne | hne
    · simp [if_neg (Ne.symm hne)]
    · rcases Decidable.em (p2 = p) with rfl | hp2
      · cases h : dtr.instances p2 with
        | none => simp [h, if_neg (Ne.symm hne)]
        | some sides => simp [h, if_neg (Ne.symm hne)]
      · simp [if_neg hp2]
  · simp only [DrawerTrackerState.unregister]
    cases h : dtr.instances p with
    | none => simp [DrawerTrackerState.get_drawers_on_side, h]
    | some sides => simp [DrawerTrackerState.get_drawers_on_side, h]
  · simp only [DrawerTrackerState.unregister]
    cases h : dtr.instances p with
    | none => rfl
    | some sides =>
      simp only [DrawerTrackerState.get_drawers_on_side]
      rcases hps with hne | hne
      · simp [if_neg (Ne.symm hne)]
      · rcases Decidable.em (p2 = p) with rfl | hp2
        · simp [h, if_neg (Ne.symm hne)]
        · simp [if_neg hp2]
  · simp only [OverlayTrackerState.register, OverlayTrackerState.get_overlays]
    cases h : otr.instances p with
    | none => simp [h]
    | some l => simp [h]
  · simp only [OverlayTrackerState.register, OverlayTrackerState.get_overlays]
    simp [if_neg (Ne.symm hp)]
  · simp only [OverlayTrackerState.unregister]
    cases h : otr.instances p with
    | none => simp [OverlayTrackerState.get_overlays, h]
    | some l => simp [OverlayTrackerState.get_overlays, h]
  · simp only [OverlayTrackerState.unregister]
    cases h : otr.instances p with
    | none => rfl
    | some l =>
      simp only [OverlayTrackerState.get_overlays]
      simp [if_neg (Ne.symm hp)]

/-- Unregistering at a parent and zone erases exactly there. -/
theorem NotificationManagerState.notif_unregister_get
    (tr : NotificationManagerState) (p w : Nat) (z : NotificationZone) :
    (tr.unregister p w z).get_notifications p z
      = (tr.get_notifications p z).erase w := by
  simp only [NotificationManagerState.unregister]
  cases h : tr.instances p with
  | none => simp [NotificationManagerState.get_notifications, h]
  | some zones => simp [NotificationManagerState.get_notifications, h]

/-- Unregistering a drawer erases exactly at its parent and side. -/
theorem DrawerTrackerState.drawer_unregister_get
    (tr : DrawerTrackerState) (p w : Nat) (s : DrawerSide) :
    (tr.unregister p w s).get_drawers_on_side p s
      = (tr.get_drawers_on_side p s).erase w := by
  simp only [DrawerTrackerState.unregister]
  cases h : tr.instances p with
  | none => simp [DrawerTrackerState.get_drawers_on_side, h]
  | some sides => simp [DrawerTrackerState.get_drawers_on_side, h]

/-- Unregistering a drawer leaves the lists of other sides of the same
parent unchanged. -/
theorem DrawerTrackerState.get_unregister_other_side
    (tr : DrawerTrackerState) (p w : Nat) (s s2 : DrawerSide) (h : s ≠ s2) :
    (tr.unregister p w s).get_drawers_on_side p s2
      = tr.get_drawers_on_side p s2 := by
  simp only [DrawerTrackerState.unregister]
  cases hins : tr.instances p with
  | none => rfl
  | some sides =>
    simp [DrawerTrackerState.get_drawers_on_side, hins, if_neg (Ne.symm h)]

/-- Unregistering an overlay erases exactly at its parent. -/
theorem OverlayTrackerState.overlay_unregister_get
    (tr : OverlayTrackerState) (p w : Nat) :
    (tr.unregister p w).get_overlays p = (tr.get_overlays p).erase w := by
  simp only [OverlayTrackerState.unregister]
  cases h : tr.instances p with
  | none => simp [OverlayTrackerState.get_overlays, h]
  | some l => simp [OverlayTrackerState.get_overlays, h]

/-- An element occurring at most once is gone after one `List.erase`
(`list.remove` in Python). -/
theorem not_mem_erase_of_count_le_one (l : List Nat) (a : Nat)
    (h : l.count a ≤ 1) : a ∉ l.erase a := by
  intro hmem
  have h2 : List.count a (l.erase a) = List.count a l - 1 :=
    List.count_erase_self a l
  have h3 : List.count a (l.erase a) = 0 := by omega
  exact (List.count_eq_zero.mp h3) hmem

/-- Iterating an idempotent function stabilises after one application. -/
theorem iterate_fixed_of_idem {α : Type} (f : α → α)
    (hf : ∀ x, f (f x) = f x) (n : Nat) (x : α) : f^[n] (f x) = f x := by
  induction n with
  | zero => rfl
  | succ n ih => rw [Function.iterate_succ_apply, hf, ih]

/-- `_close_drawer` always leaves `_closing` set. -/
theorem DrawerWorld.close_drawer_closing (w : DrawerWorld) :
    w.close_drawer.closing = true := by
  simp only [DrawerWorld.close_drawer, DrawerWorld.animate_out]
  split
  case isTrue h => exact h
  case isFalse h => split <;> rfl

/-- `_close_drawer` returns immediately once `_closing` is set. -/
theorem DrawerWorld.close_drawer_of_closing (w : DrawerWorld)
    (h : w.closing = true) : w.close_drawer = w := by
  simp [DrawerWorld.close_drawer, h]

/-- `_close_drawer` is idempotent. -/
theorem DrawerWorld.close_drawer_idem (w : DrawerWorld) :
    w.close_drawer.close_drawer = w.close_drawer :=
  DrawerWorld.close_drawer_of_closing _ (DrawerWorld.close_drawer_closing w)

/-- Any number of interleaved close requests starts at most one close
animation on a drawer. -/
theorem DrawerWorld.drawer_close_anims_bound (w : DrawerWorld)
    (h0 : w.closing = false) (ha : w.outAnims = 0) (n : Nat) :
    (DrawerWorld.close_drawer^[n] w).outAnims ≤ 1 := by
  cases n with
  | zero => simp [ha]
  | succ n =>
    rw [Function.iterate_succ_apply,
      iterate_fixed_of_idem _ DrawerWorld.close_drawer_idem]
    by_cases hf : w.hasFrame = false <;>
      simp [DrawerWorld.close_drawer, DrawerWorld.animate_out, h0, hf, ha]

/-- `_close_overlay` always leaves `_closing` set. -/
theorem OverlayWorld.close_overlay_closing (w : OverlayWorld) :
    w.close_overlay.closing = true := by
  simp only [OverlayWorld.close_overlay]
  split
  case isTrue h => exact h
  case isFalse h => rfl

/-- `_close_overlay` returns immediately once `_closing` is set. -/
theorem OverlayWorld.close_overlay_of_closing (w : OverlayWorld)
    (h : w.closing = true) : w.close_overlay = w := by
  simp [OverlayWorld.close_overlay, h]

/-- `_close_overlay` is idempotent. -/
theorem OverlayWorld.close_overlay_idem (w : OverlayWorld) :
    w.close_overlay.close_overlay = w.close_overlay :=
  OverlayWorld.close_overlay_of_closing _ (OverlayWorld.close_overlay_closing w)

/-- Any number of interleaved close requests starts at most one fade-out
animation on an overlay. -/
theorem OverlayWorld.overlay_close_anims_bound (w : OverlayWorld)
    (h0 : w.closing = false) (ha : w.outAnims = 0) (n : Nat) :
    (OverlayWorld.close_overlay^[n] w).outAnims ≤ 1 := by
  cases n with
  | zero => simp [ha]
  | succ n =>
    rw [Function.iterate_succ_apply,
      iterate_fixed_of_idem _ OverlayWorld.close_overlay_idem]
    simp [OverlayWorld.close_overlay, h0, ha]

/-- `_start_dismiss` always leaves `_closing` set. -/
theorem NotifWorld.start_dismiss_closing (w : NotifWorld) :
    w.start_dismiss.closing = true := by
  simp only [NotifWorld.start_dismiss]
  split
  case isTrue h => exact h
  case isFalse h => rfl

/-- `_start_dismiss` returns immediately once `_closing` is set. -/
theorem NotifWorld.start_dismiss_of_closing (w : NotifWorld)
    (h : w.closing = true) : w.start_dismiss = w := by
  simp [NotifWorld.start_dismiss, h]

/-- `_start_dismiss` is idempotent. -/
theorem NotifWorld.start_dismiss_idem (w : NotifWorld) :
    w.start_dismiss.start_dismiss = w.start_dismiss :=
  NotifWorld.start_dismiss_of_closing _ (NotifWorld.start_dismiss_closing w)

/-- Any number of interleaved dismiss requests (close button, auto-dismiss
timer, `close_all`) starts at most one dismiss animation. -/
theorem NotifWorld.dismiss_anims_bound (w : NotifWorld)
    (h0 : w.closing = false) (ha : w.outAnims = 0) (n : Nat) :
    (NotifWorld.start_dismiss^[n] w).outAnims ≤ 1 := by
  cases n with
  | zero => simp [ha]
  | succ n =>
    rw [Function.iterate_succ_apply,
      iterate_fixed_of_idem _ NotifWorld.start_dismiss_idem]
    simp [NotifWorld.start_dismiss, h0, ha]

/-- C1: for `DrawerWidget._close_drawer`, `OverlayWidget._close_overlay`,
and `NotificationItem._start_dismiss`, once a close has begun and the
`_closing` flag is set every further call returns the state unchanged, the
operation is idempotent, and any number of interleaved close requests
starting from a not-yet-closing widget begins at most one close animation
(to whose `finished` signal the single `_cleanup`/`closed` emission is
attached). -/
theorem C1_close_idempotent :
    (∀ w : DrawerWorld,
      (w.closing = true → w.close_drawer = w)
      ∧ w.close_drawer.close_drawer = w.close_drawer
      ∧ w.close_drawer.closing = true
      ∧ (w.closing = false → w.outAnims = 0 →
          ∀ n : Nat, (DrawerWorld.close_drawer^[n] w).outAnims ≤ 1))
    ∧ (∀ w : OverlayWorld,
      (w.closing = true → w.close_overlay = w)
      ∧ w.close_overlay.close_overlay = w.close_overlay
      ∧ w.close_overlay.closing = true
      ∧ (w.closing = false → w.outAnims = 0 →
          ∀ n : Nat, (OverlayWorld.close_overlay^[n] w).outAnims ≤ 1))
    ∧ (∀ w : NotifWorld,
      (w.closing = true → w.start_dismiss = w)
      ∧ w.start_dismiss.start_dismiss = w.start_dismiss
      ∧ w.start_dismiss.closing = true
      ∧ (w.closing = false → w.outAnims = 0 →
          ∀ n : Nat, (NotifWorld.start_dismiss^[n] w).outAnims ≤ 1)) :=
  ⟨fun w => ⟨fun h => DrawerWorld.close_drawer_of_closing w h,
     DrawerWorld.close_drawer_idem w, DrawerWorld.close_drawer_closing w,
     fun h0 ha n => DrawerWorld.drawer_close_anims_bound w h0 ha n⟩,
   fun w => ⟨fun h => OverlayWorld.close_overlay_of_closing w h,
     OverlayWorld.close_overlay_idem w, OverlayWorld.close_overlay_closing w,
     fun h0 ha n => OverlayWorld.overlay_close_anims_bound w h0 ha n⟩,
   fun w => ⟨fun h => NotifWorld.start_dismiss_of_closing w h,
     NotifWorld.start_dismiss_idem w, NotifWorld.start_dismiss_closing w,
     fun h0 ha n => NotifWorld.dismiss_anims_bound w h0 ha n⟩⟩

/-- Witness for C1 at a concrete fresh notification. -/
theorem C1_close_idempotent_witness :
    cexNotifC1.closing = false ∧ cexNotifC1.outAnims = 0
    ∧ (NotifWorld.start_dismiss^[3] cexNotifC1).outAnims ≤ 1 :=
  ⟨rfl, rfl, (C1_close_idempotent.2.2 cexNotifC1).2.2.2 rfl rfl 3⟩

/-- C2 counterexample: calling `show_notification` twice on the same
`NotificationItem` registers it twice with `_NotificationManager`, but
`_cleanup` unregisters only one occurrence, so after the close completes the
widget is still present in its zone's tracker list. -/
theorem C2_counterexample :
    cexNotifC2.show_notification.show_notification.start_dismiss.cleanup.itemId
      ∈ (cexNotifC2.show_notification.show_notification.start_dismiss.cleanup.tracker.get_notifications
          0 NotificationZone.top_right) := by
  decide

/-- C2 (amended): after `_cleanup` runs, the widget is no longer in its
tracker's list for its parent and side/zone, its event filter has been
removed, its content widget has been released, and the owning manager has
dropped it from its open list — provided each show operation was performed
at most once on the widget instance, so that the widget occurs at most once
in the tracker lists and the manager list when `_cleanup` runs. -/
theorem C2_cleanup_releases (wn : NotifWorld) (wd : DrawerWorld)
    (wo : OverlayWorld) (pn pd po : Nat)
    (hn : wn.parent = some pn)
    (hn1 : (wn.tracker.get_notifications pn wn.zone).count wn.itemId ≤ 1)
    (hn2 : wn.managerList.count wn.itemId ≤ 1)
    (hd : wd.parent = some pd)
    (hd1 : (wd.tracker.get_drawers_on_side pd wd.side).count wd.drawerId ≤ 1)
    (hd2 : ∀ s, s ≠ wd.side → wd.drawerId ∉ wd.tracker.get_drawers_on_side pd s)
    (hd3 : wd.managerList.count wd.drawerId ≤ 1)
    (ho : wo.parent = some po)
    (ho1 : (wo.tracker.get_overlays po).count wo.overlayId ≤ 1)
    (ho2 : wo.managerList.count wo.overlayId ≤ 1) :
    (wn.itemId ∉ wn.cleanup.tracker.get_notifications pn wn.zone
      ∧ wn.cleanup.filterInstalled = false
      ∧ wn.itemId ∉ wn.cleanup.managerList)
    ∧ ((∀ s, wd.drawerId ∉ wd.cleanup.tracker.get_drawers_on_side pd s)
      ∧ wd.cleanup.filterInstalled = false
      ∧ wd.cleanup.contentWidget = none
      ∧ wd.cleanup.hasFrame = false
      ∧ wd.drawerId ∉ wd.cleanup.managerList)
    ∧ (wo.overlayId ∉ wo.cleanup.tracker.get_overlays po
      ∧ wo.cleanup.filterInstalled = false
      ∧ wo.cleanup.contentWidget = none
      ∧ wo.overlayId ∉ wo.cleanup.managerList) := by
  refine ⟨⟨?_, ?_, ?_⟩, ⟨?_, ?_, ?_, ?_, ?_⟩, ⟨?_, ?_, ?_, ?_⟩⟩
  · simp only [NotifWorld.cleanup, hn]
    rw [NotificationManagerState.notif_unregister_get]
    exact not_mem_erase_of_count_le_one _ _ hn1
  · simp [NotifWorld.cleanup, hn]
  · simp only [NotifWorld.cleanup, hn]
    exact not_mem_erase_of_count_le_one _ _ hn2
  · intro s
    simp only [DrawerWorld.cleanup, hd]
    by_cases hs : s = wd.side
    · subst hs
      rw [DrawerTrackerState.drawer_unregister_get]
      exact not_mem_erase_of_count_le_one _ _ hd1
    · rw [DrawerTrackerState.get_unregister_other_side _ _ _ _ _
        (fun he => hs he.symm)]
      exact hd2 s hs
  · simp [DrawerWorld.cleanup, hd]
  · simp [DrawerWorld.cleanup, hd]
  · simp [DrawerWorld.cleanup, hd]
  · simp only [DrawerWorld.cleanup, hd]
    exact not_mem_erase_of_count_le_one _ _ hd3
  · simp only [OverlayWorld.cleanup, ho]
    rw [OverlayTrackerState.overlay_unregister_get]
    exact not_mem_erase_of_count_le_one _ _ ho1
  · simp [OverlayWorld.cleanup, ho]
  · simp [OverlayWorld.cleanup, ho]
  · simp only [OverlayWorld.cleanup, ho]
    exact not_mem_erase_of_count_le_one _ _ ho2

/-- Witness for C2 (amended) on singly-shown widgets. -/
theorem C2_cleanup_releases_witness :
    (cexNotifShown.tracker.get_notifications 0 cexNotifShown.zone).count
        cexNotifShown.itemId ≤ 1
    ∧ cexNotifShown.itemId
        ∉ cexNotifShown.cleanup.tracker.get_notifications 0 cexNotifShown.zone
    ∧ cexDrawerShown.cleanup.contentWidget = none
    ∧ cexOverlayShown.overlayId ∉ cexOverlayShown.cleanup.managerList := by
  have h := C2_cleanup_releases cexNotifShown cexDrawerShown cexOverlayShown
    0 0 0 (by decide) (by decide) (by decide)
    (by decide) (by decide)
    (by intro s hs
        cases s
        · decide
        · exact absurd rfl hs
        · decide
        · decide)
    (by decide) (by decide) (by decide) (by decide)
  exact ⟨by decide, h.1.1, h.2.1.2.2.1, h.2.2.2.2.2⟩

/-- C3: for a notification with a positive auto-dismiss duration that is
not closing, a mouse-enter pauses auto-dismissal (the dismiss timer stops,
and ticks no longer decrease the remaining time) and a mouse-leave resumes
it: the dismiss timer restarts with exactly the remaining time when that is
positive, otherwise dismissal starts immediately. -/
theorem C3_pause_resume (w : NotifWorld)
    (hdur : 0 < w.duration) (hcl : w.closing = false) :
    (w.enterEvent.paused = true ∧ w.enterEvent.dismissTimer = none)
    ∧ (w.paused = true → w.tick.remaining = w.remaining)
    ∧ (w.paused = true →
        (0 < w.remaining →
          w.leaveEvent.dismissTimer = some w.remaining
          ∧ w.leaveEvent.paused = false
          ∧ w.leaveEvent.closing = false)
        ∧ (w.remaining ≤ 0 → w.leaveEvent.closing = true)) := by
  refine ⟨?_, ?_, ?_⟩
  · constructor <;> simp [NotifWorld.enterEvent, hdur, hcl]
  · intro hp
    simp [NotifWorld.tick, hp]
  · intro hp
    constructor
    · intro hr
      refine ⟨?_, ?_, ?_⟩ <;>
        simp [NotifWorld.leaveEvent, NotifWorld.start_dismiss, hdur, hcl, hp, hr]
    · intro hr
      have hr2 : ¬ (0 < w.remaining) := by omega
      simp [NotifWorld.leaveEvent, NotifWorld.start_dismiss, hdur, hcl, hp, hr2]

/-- Witness for C3 at a concrete paused notification. -/
theorem C3_pause_resume_witness :
    (0 : Int) < cexNotifC3.duration ∧ cexNotifC3.closing = false
    ∧ cexNotifC3.paused = true
    ∧ cexNotifC3.leaveEvent.dismissTimer = some cexNotifC3.remaining := by
  have h := C3_pause_resume cexNotifC3 (by decide) rfl
  exact ⟨by decide, rfl, rfl, ((h.2.2 rfl).1 (by decide)).1⟩

/-- C9: the effective auto-dismiss duration is the explicit argument when
given, else the style's duration when a style was given, else the severity
default (INFO and SUCCESS 3000 ms, WARNING 5000 ms, ERROR 7000 ms,
CRITICAL 0); `show_notification` starts the dismiss and elapsed timers iff
the resolved duration is strictly positive, so a resolved duration of 0
never auto-dismisses. -/
theorem C9_duration_resolution (d : Int) (st : SeverityStyle)
    (sev : NotificationSeverity) (w : NotifWorld) (p : Nat)
    (hp : w.parent = some p) (ht : w.dismissTimer = none)
    (he : w.elapsedRunning = false) :
    resolve_duration (some d) (some st) sev = d
    ∧ resolve_duration (some d) none sev = d
    ∧ resolve_duration none (some st) sev = st.duration
    ∧ resolve_duration none none .info = 3000
    ∧ resolve_duration none none .success = 3000
    ∧ resolve_duration none none .warning = 5000
    ∧ resolve_duration none none .error = 7000
    ∧ resolve_duration none none .critical = 0
    ∧ (0 < w.duration →
        w.show_notification.dismissTimer = some w.duration
        ∧ w.show_notification.elapsedRunning = true)
    ∧ (w.duration ≤ 0 →
        w.show_notification.dismissTimer = none
        ∧ w.show_notification.elapsedRunning = false) := by
  refine ⟨rfl, rfl, rfl, rfl, rfl, rfl, rfl, rfl, ?_, ?_⟩
  · intro hdur
    constructor <;> simp [NotifWorld.show_notification, hp, hdur]
  · intro hdur
    have hdur2 : ¬ (0 < w.duration) := by omega
    constructor <;> simp [NotifWorld.show_notification, hp, hdur2, ht, he]

/-- Witness for C9 at a concrete notification with the WARNING default. -/
theorem C9_duration_resolution_witness :
    resolve_duration none none NotificationSeverity.critical = 0
    ∧ cexNotifC9.parent = some 0
    ∧ cexNotifC9.show_notification.dismissTimer = some cexNotifC9.duration := by
  have h := C9_duration_resolution 0 (SeverityStyle.default .info)
    NotificationSeverity.critical cexNotifC9 0 rfl rfl rfl
  exact ⟨h.2.2.2.2.2.2.2.1, rfl, (h.2.2.2.2.2.2.2.2.1 (by decide)).1⟩

/-- Witness for C4 at concrete inputs. -/
theorem C4_tracker_isolation_witness :
    ((1 : Nat) ≠ 2 ∨ NotificationZone.top_left ≠ NotificationZone.top_right)
    ∧ ((⟨fun _ => none⟩ :
        NotificationManagerState).register 1 5 NotificationZone.top_left
          |>.get_notifications 1 NotificationZone.top_left) = [5] := by
  refine ⟨Or.inl (by decide), ?_⟩
  have h := C4_tracker_isolation (⟨fun _ => none⟩ : NotificationManagerState)
    (⟨fun _ => none, fun _ => none⟩ : DrawerTrackerState)
    (⟨fun _ => none, fun _ => none⟩ : OverlayTrackerState)
    1 2 5 NotificationZone.top_left NotificationZone.top_right
    DrawerSide.left DrawerSide.right
    (Or.inl (by decide)) (Or.inl (by decide)) (by decide)
  have h1 := h.1.1
  rw [h1]
  rfl

/-- The stacking fold adds nothing once the enumeration index has reached
the notification's own index. -/
theorem enumFrom_foldl_const (heightOf : Nat → Int) (spacing : Int) (i : Nat) :
    ∀ (l : List Nat) (k : Nat) (acc : Int), i ≤ k →
    (List.enumFrom k l).foldl
      (fun a p => if (p.1 : Int) < (i : Int) then a + (heightOf p.2 + spacing) else a)
      acc = acc := by
  intro l
  induction l with
  | nil => intro k acc _; rfl
  | cons n rest ih =>
    intro k acc hk
    have hcond : ¬ ((k : Int) < (i : Int)) := by
      exact_mod_cast not_lt.mpr hk
    simp only [List.enumFrom, List.foldl_cons, hcond, if_false]
    exact ih (k + 1) acc (Nat.le_succ_of_le hk)

/-- The stacking fold over an enumeration starting at `k` sums
`height + spacing` over the first `i - k` entries. -/
theorem enumFrom_foldl_take (heightOf : Nat → Int) (spacing : Int) (i : Nat) :
    ∀ (l : List Nat) (k : Nat) (acc : Int), k ≤ i → i ≤ k + l.length →
    (List.enumFrom k l).foldl
      (fun a p => if (p.1 : Int) < (i : Int) then a + (heightOf p.2 + spacing) else a)
      acc
    = acc + ((l.take (i - k)).map (fun n => heightOf n + spacing)).sum := by
  intro l
  induction l with
  | nil =>
    intro k acc hk hk2
    have hik : i = k := le_antisymm (by simpa using hk2) hk
    subst hik
    simp
  | cons n rest ih =>
    intro k acc hk hk2
    rcases Nat.lt_or_ge k i with hlt | hge
    · have hcond : ((k : Int) < (i : Int)) := by exact_mod_cast hlt
      have h1 : i - k = (i - (k + 1)) + 1 := by omega
      have hk2b : i ≤ (k + 1) + rest.length := by
        simp only [List.length_cons] at hk2
        omega
      simp only [List.enumFrom, List.foldl_cons, hcond, if_true]
      rw [ih (k + 1) (acc + (heightOf n + spacing)) hlt hk2b]
      rw [h1, List.take_succ_cons]
      simp only [List.map_cons, List.sum_cons]
      ring
    · have hik : i = k := le_antisymm hge hk
      subst hik
      simp only [Nat.sub_self, List.take_zero, List.map_nil, List.sum_nil,
        add_zero]
      exact enumFrom_foldl_const heightOf spacing i (n :: rest) i acc le_rfl

/-- The enumerate-and-filter loop of `_calculate_target_position` equals the
sum of `height + spacing` over the first `i` list entries. -/
theorem cumulative_height_eq_take_sum (l : List Nat) (i : Nat)
    (heightOf : Nat → Int) (spacing : Int) (h : i ≤ l.length) :
    cumulative_height l (i : Int) heightOf spacing
      = ((l.take i).map (fun n => heightOf n + spacing)).sum := by
  have hmain := enumFrom_foldl_take heightOf spacing i l 0 0 (Nat.zero_le i)
    (by simpa using h)
  simpa [cumulative_height, List.enum] using hmain

/-- C5: a notification at index `i` of its zone's list is placed with a
15 px margin and 10 px spacing: `x` is 15 for left zones and
`parent_width - width - 15` for right zones; `y` is 15 plus the sum of
`height + 10` over the first `i` stacked notifications for top zones, and
`parent_height - 15 - height` minus that sum for bottom zones. -/
theorem C5_stacking_positions (parentW parentH selfW selfH : Int)
    (zone : NotificationZone) (tr : NotificationManagerState)
    (p selfId : Nat) (heightOf : Nat → Int) (l : List Nat) (i : Nat)
    (hl : tr.get_notifications p zone = l)
    (hi : tr.get_index p selfId zone = (i : Int))
    (hlen : i ≤ l.length) :
    calculate_target_position parentW parentH zone selfW selfH tr p selfId
        heightOf
      = (let s := ((l.take i).map (fun n => heightOf n + 10)).sum
         match zone with
         | .top_left => ⟨15, 15 + s⟩
         | .top_right => ⟨parentW - selfW - 15, 15 + s⟩
         | .bottom_left => ⟨15, parentH - 15 - selfH - s⟩
         | .bottom_right =>
           ⟨parentW - selfW - 15, parentH - 15 - selfH - s⟩) := by
  have hnonneg := Int.natCast_nonneg i
  have hidx : ¬ ((i : Int) < 0) := by omega
  simp only [calculate_target_position, hl, hi, if_neg hidx]
  rw [cumulative_height_eq_take_sum l i heightOf 10 hlen]
  cases zone <;> rfl

/-- Witness for C5: the third notification (height 70) under two stacked
ones of heights 50 and 60 lands at `y = 15 + 60 + 70 = 145`. -/
theorem C5_stacking_positions_witness :
    cexTrackerC5.get_notifications 0 NotificationZone.top_left = [5, 6, 7]
    ∧ cexTrackerC5.get_index 0 7 NotificationZone.top_left = (2 : Int)
    ∧ calculate_target_position 800 600 NotificationZone.top_left 320 70
        cexTrackerC5 0 7 (fun n => (n : Int) * 10) = ⟨15, 145⟩ := by
  have h := C5_stacking_positions 800 600 320 70 NotificationZone.top_left
    cexTrackerC5 0 7 (fun n => (n : Int) * 10) [5, 6, 7] 2
    (by decide) (by decide) (by decide)
  refine ⟨by decide, by decide, ?_⟩
  rw [h]
  decide

/-- C6: a `Resize` event from the parent makes the drawer recompute and
reapply its geometry via `_position_content` (covering the parent again in
non-sticky mode), makes the standard overlay recenter its content and close
button on the new parent size, and makes a not-closing notification animate
to its freshly recalculated target position (a closing one is left
alone). -/
theorem C6_resize_repositioning (dst : DrawerUIState) (ost : OverlayUIState)
    (nst : NotifUIState) (tr : NotificationManagerState)
    (heightOf : Nat → Int) (pWq pHq : ℚ) (pW pH : Int) (cw ch : Int)
    (hoc : ost.content = some (cw, ch)) (hob : ost.nobackground = false)
    (hnc : nst.closing = false) :
    ((drawerEventFilter dst true QEventType.resize pWq pHq).layout
        = drawer_position_content dst.sticky dst.side dst.drawer_size pWq pHq
            dst.hasFrame dst.closeBtn)
    ∧ (dst.sticky = false →
        (drawerEventFilter dst true QEventType.resize pWq pHq).layout.widgetGeom
          = ⟨0, 0, pWq, pHq⟩)
    ∧ (overlayEventFilter ost true QEventType.resize pW pH).layout.contentPos
        = some ⟨pW.fdiv 2 - cw.fdiv 2, pH.fdiv 2 - ch.fdiv 2⟩
    ∧ (overlayEventFilter ost true QEventType.resize pW pH).layout.closePos
        = ⟨pW - ost.closeW - 20, 20⟩
    ∧ (overlayEventFilter ost true QEventType.resize pW pH).layout.widgetGeom
        = ⟨0, 0, pW, pH⟩
    ∧ (notifEventFilter nst true QEventType.resize tr pW pH heightOf).animTarget
        = some (calculate_target_position pW pH nst.zone nst.width nst.height
            tr nst.parentId nst.itemId heightOf)
    ∧ (∀ nst2 : NotifUIState, nst2.closing = true →
        notifEventFilter nst2 true QEventType.resize tr pW pH heightOf = nst2) := by
  refine ⟨?_, ?_, ?_, ?_, ?_, ?_, ?_⟩
  · simp [drawerEventFilter]
  · intro hs
    simp only [drawerEventFilter, and_self, if_true, hs]
    simp only [drawer_position_content]
    split <;> rfl
  · simp [overlayEventFilter, overlay_position_content, hob, hoc]
  · simp [overlayEventFilter, overlay_position_content, hob, hoc]
  · simp [overlayEventFilter, overlay_position_content, hob, hoc]
  · simp [notifEventFilter, hnc]
  · intro nst2 h2
    simp [notifEventFilter, h2]

/-- Witness for C6 at concrete drawer, overlay, and notification states. -/
theorem C6_resize_repositioning_witness :
    cexOverlayUI.content = some ((300 : Int), (200 : Int))
    ∧ cexNotifUI.closing = false
    ∧ (drawerEventFilter cexDrawerUI true QEventType.resize 1000 700).layout.widgetGeom
        = ⟨0, 0, 1000, 700⟩
    ∧ (overlayEventFilter cexOverlayUI true QEventType.resize 800 600).layout.contentPos
        = some ⟨250, 200⟩
    ∧ (notifEventFilter cexNotifUI true QEventType.resize cexTrackerC6 800 600
        (fun n => (n : Int) * 10)).animTarget = some ⟨15, 145⟩ := by
  have h := C6_resize_repositioning cexDrawerUI cexOverlayUI cexNotifUI
    cexTrackerC6 (fun n => (n : Int) * 10) 1000 700 800 600 300 200
    rfl rfl rfl
  refine ⟨rfl, rfl, h.2.1 rfl, ?_, ?_⟩
  · rw [h.2.2.1]
    decide
  · rw [h.2.2.2.2.2.1]
    decide

/-- `parseParts` preserves the number of parts when it succeeds. -/
theorem parseParts_length :
    ∀ (l : List String) (parts : List Int), parseParts l = some parts →
    parts.length = l.length := by
  intro l
  induction l with
  | nil =>
    intro parts h
    simp only [parseParts] at h
    cases h
    rfl
  | cons p rest ih =>
    intro parts h
    simp only [parseParts] at h
    cases hv : pyIntOfString p with
    | none => rw [hv] at h; cases h
    | some v =>
      cases hr : parseParts rest with
      | none => rw [hv, hr] at h; cases h
      | some vs =>
        rw [hv, hr] at h
        cases h
        simp [ih vs hr]

/-- C7: the failure modes are handled by fallbacks: `_parse_color` yields
`None` for every string that is not 3 or 4 comma-separated integers,
`apply_scheme` returns `False` and leaves the application palette untouched
when the scheme data is missing (file absent or unparseable) or empty, and
`get_icon` returns the null `QIcon` when neither the requested name nor the
fallback resolves, both with and without a theme override. -/
theorem C7_error_fallbacks :
    (∀ s : String, parse_color s = parseColorParts (s.splitOn ","))
    ∧ (∀ partsList : List String,
      (parseParts partsList = none
        ∨ ¬ (partsList.length = 3 ∨ partsList.length = 4)) →
      parseColorParts partsList = none)
    ∧ (∀ app, apply_scheme none app = (false, app))
    ∧ (∀ app, apply_scheme (some []) app = (false, app))
    ∧ (∀ (pathEnv : String → Nat → String → Option String)
        (themedEnv : String → Bool) (name t : String) (size : Nat),
        pathEnv name size t = none →
        get_icon pathEnv themedEnv name none (some t) size = PyIcon.nullIcon)
    ∧ (∀ (pathEnv : String → Nat → String → Option String)
        (themedEnv : String → Bool) (name fb t : String) (size : Nat),
        pathEnv name size t = none → pathEnv fb size t = none →
        get_icon pathEnv themedEnv name (some fb) (some t) size
          = PyIcon.nullIcon)
    ∧ (∀ (pathEnv : String → Nat → String → Option String)
        (themedEnv : String → Bool) (name : String) (size : Nat),
        themedEnv name = false →
        get_icon pathEnv themedEnv name none none size = PyIcon.nullIcon)
    ∧ (∀ (pathEnv : String → Nat → String → Option String)
        (themedEnv : String → Bool) (name fb : String) (size : Nat),
        themedEnv name = false → themedEnv fb = false →
        get_icon pathEnv themedEnv name (some fb) none size
          = PyIcon.nullIcon) := by
  refine ⟨fun s => rfl, ?_, fun app => rfl, fun app => rfl, ?_, ?_, ?_, ?_⟩
  · intro partsList h
    cases hp : parseParts partsList with
    | none => simp [parseColorParts, hp]
    | some parts =>
      rcases h with h | h
      · rw [hp] at h; cases h
      · have hlen := parseParts_length _ _ hp
        match parts, hlen with
        | [], _ => simp [parseColorParts, hp]
        | [a], _ => simp [parseColorParts, hp]
        | [a, b], _ => simp [parseColorParts, hp]
        | [a, b, c], hlen =>
          exfalso
          exact h (Or.inl (by simpa using hlen.symm))
        | [a, b, c, d], hlen =>
          exfalso
          exact h (Or.inr (by simpa using hlen.symm))
        | a :: b :: c :: d :: e :: rest, _ => simp [parseColorParts, hp]
  · intro pathEnv themedEnv name t size h
    simp [get_icon, h]
  · intro pathEnv themedEnv name fb t size h1 h2
    simp [get_icon, h1, h2]
  · intro pathEnv themedEnv name size h
    simp [get_icon, fromTheme, iconIsNull, h]
  · intro pathEnv themedEnv name fb size h1 h2
    simp [get_icon, fromTheme, iconIsNull, h1, h2]

/-- Witness for C7: a 2-part color string, a missing scheme, and an icon
lookup that misses both names. -/
theorem C7_error_fallbacks_witness :
    ¬ ((["12", "34"] : List String).length = 3
        ∨ (["12", "34"] : List String).length = 4)
    ∧ parseColorParts ["12", "34"] = none
    ∧ apply_scheme none (some []) = (false, some [])
    ∧ get_icon (fun _ _ _ => none) (fun _ => false) "document-save"
        (some "folder") (some "breeze") 48 = PyIcon.nullIcon
    ∧ get_icon (fun _ _ _ => none) (fun _ => false) "document-save"
        (some "folder") none 48 = PyIcon.nullIcon := by
  refine ⟨by decide, ?_, ?_, ?_, ?_⟩
  · exact C7_error_fallbacks.2.1 ["12", "34"] (Or.inr (by decide))
  · exact C7_error_fallbacks.2.2.1 (some [])
  · exact C7_error_fallbacks.2.2.2.2.2.1 (fun _ _ _ => none) (fun _ => false)
      "document-save" "folder" "breeze" 48 rfl rfl
  · exact C7_error_fallbacks.2.2.2.2.2.2.2 (fun _ _ _ => none) (fun _ => false)
      "document-save" "folder" 48 rfl rfl

/-- C10: with the default configuration (`nobackground=False`; the function
does not read `sticky`), the new overlay's `_position_content` computes
exactly the legacy `CasPyside6Widgets` layout: geometry equal to the parent
rect, content moved to the `//`-centered position, and the close button at
`(width - button_width - 20, 20)`. -/
theorem C10_overlay_refinement :
    (∀ (parentW parentH : Int) (content : Option (Int × Int))
      (closeW closeH : Int) (prev : OverlayLayout),
      overlay_position_content false parentW parentH content closeW closeH prev
        = cas_overlay_position_content parentW parentH content closeW closeH
            prev)
    ∧ (∀ (parentW parentH cw ch closeW closeH : Int) (prev : OverlayLayout),
      overlay_position_content false parentW parentH (some (cw, ch)) closeW
          closeH prev
        = { widgetGeom := ⟨0, 0, parentW, parentH⟩,
            contentPos :=
              some ⟨parentW.fdiv 2 - cw.fdiv 2, parentH.fdiv 2 - ch.fdiv 2⟩,
            closePos := ⟨parentW - closeW - 20, 20⟩ }) :=
  ⟨fun _ _ _ _ _ _ => rfl, fun _ _ _ _ _ _ _ => rfl⟩

end EmuWidgets
